import Mathlib

/-!
Verification development for the `content_sourcing_agent` repository.

The repository is a small educational-assessment pipeline.  This file gives a
shallow embedding of the pieces of the code that the verified properties are
about:

* `content_sourcing_updated.py` — URL validation (`validate_url`), PDF link
  discovery (`scrape_pdf_links`), retry-guarded LLM link formatting
  (`format_pdf_links`) and the content-sourcing loop (`source_pdf_content`).
  Network, LLM, file-system and user-input effects are modelled as explicit
  oracle parameters: an oracle value captures the outcome of one external
  interaction (`none` models a raised-and-caught exception).
* `Streamlit_Feedback_agent_ui.py` — CSV validation (`validate_csv_format`)
  over a small dataframe model.
* the feedback aggregator (`generate_feedback`); its implementation file is
  not part of the sources available here, so it is modelled from the
  specification (see the doc comments starting with "Modelled from the
  spec:").  Python floats are modelled as exact rationals.
-/

/-- Character test used by Python `urllib.parse` for the characters of a URL
scheme after the first one: ASCII letters, digits, `+`, `-` and `.`. -/
def schemeChar (c : Char) : Bool :=
  c.isAlpha || c.isDigit || c == '+' || c == '-' || c == '.'

/-- Input sanitizing of Python `urllib.parse.urlsplit`: strip WHATWG C0
control characters and spaces (code points up to 0x20) from the left only,
then remove tab, carriage return and line feed everywhere. -/
def urlPreprocess (s : String) : List Char :=
  (s.data.dropWhile (fun c => c.toNat ≤ 32)).filter
    (fun c => !(c == '\t' || c == '\r' || c == '\n'))

/-- Scheme detection of `urlsplit` on sanitized characters: a scheme is
present when there is a `:` preceded by a non-empty run of scheme characters
whose first character is an ASCII letter.  Returns the scheme and the
remainder after the colon.  (Python lowercases the scheme; none of the
verified properties depend on the case, so the scheme is kept verbatim.) -/
def schemeSplitChars (u : List Char) : Option (String × String) :=
  match u.dropWhile (fun c => c != ':') with
  | [] => none
  | _ :: rest =>
    if !(u.takeWhile (fun c => c != ':')).isEmpty &&
        ((u.takeWhile (fun c => c != ':')).headD ' ').isAlpha &&
        (u.takeWhile (fun c => c != ':')).all schemeChar then
      some (String.mk (u.takeWhile (fun c => c != ':')), String.mk rest)
    else
      none

/-- Model of the scheme detection of Python `urllib.parse.urlparse`:
sanitize the input as `urlsplit` does, then split off the scheme. -/
def splitScheme (s : String) : Option (String × String) :=
  schemeSplitChars (urlPreprocess s)

/-- Whether `urlparse` reports a non-empty scheme for the string. -/
def hasScheme (s : String) : Bool := (splitScheme s).isSome

/-- Remainder of a sanitized URL after the optional scheme. -/
def restAfterScheme (u : List Char) : List Char :=
  match schemeSplitChars u with
  | some (_, r) => r.data
  | none => u

/-- Authority (netloc) section of `urlsplit`: when the remainder after the
scheme starts with `//`, everything up to the next `/`, `?` or `#`;
otherwise empty. -/
def netlocOf (s : String) : List Char :=
  if ['/', '/'].isPrefixOf (restAfterScheme (urlPreprocess s)) then
    ((restAfterScheme (urlPreprocess s)).drop 2).takeWhile
      (fun c => c != '/' && c != '?' && c != '#')
  else []

/-- Model of the `ValueError` raised by `urlparse`/`urlsplit` ("Invalid IPv6
URL"): the authority contains `[` without `]` or `]` without `[` (e.g. the
input `http://[`).  Newer CPython additionally validates the contents of a
well-bracketed host; that refinement is not modelled doc-for-doc, and the
verified statements about `validate_url` treat the raising and non-raising
paths separately, so they do not depend on the exact raise boundary. -/
def urlparseRaises (s : String) : Bool :=
  ((netlocOf s).contains '[' && !((netlocOf s).contains ']')) ||
  ((netlocOf s).contains ']' && !((netlocOf s).contains '['))

/-- Model of Python `str.endswith`: decides whether `t` is a suffix of `s`. -/
def strEndsWith (s t : String) : Bool := t.data.isSuffixOf s.data

/-- Substring test over character lists, modelling the Python `in` operator
on strings: the pattern occurs as a contiguous run somewhere in the list. -/
def listContains (pat : List Char) : List Char → Bool
  | [] => pat.isEmpty
  | c :: rest => pat.isPrefixOf (c :: rest) || listContains pat rest

/-- Model of Python `pat in s` for strings. -/
def containsSub (s pat : String) : Bool := listContains pat.data s.data

/-- Model of Python `str.lower` (ASCII case folding). -/
def strLower (s : String) : String := String.mk (s.data.map Char.toLower)

/-- Whitespace in the sense of Python `str.strip()` with no argument: the
Unicode whitespace code points 0x09-0x0d, 0x1c-0x1f, 0x20, 0x85, 0xa0,
0x1680, 0x2000-0x200a, 0x2028, 0x2029, 0x202f, 0x205f and 0x3000. -/
def pyWhitespace (c : Char) : Bool :=
  (9 ≤ c.toNat && c.toNat ≤ 13) || (28 ≤ c.toNat && c.toNat ≤ 32) ||
  c.toNat == 133 || c.toNat == 160 || c.toNat == 0x1680 ||
  (0x2000 ≤ c.toNat && c.toNat ≤ 0x200a) || c.toNat == 0x2028 ||
  c.toNat == 0x2029 || c.toNat == 0x202f || c.toNat == 0x205f ||
  c.toNat == 0x3000

/-- Model of Python `str.strip()`: drop Unicode whitespace from both ends.
(Defined structurally over the character list so that proofs can evaluate
it; the core `String.trim` is defined by well-founded recursion on byte
positions, does not reduce in the kernel, and covers only ASCII
whitespace.) -/
def strStrip (s : String) : String :=
  String.mk
    (((s.data.dropWhile pyWhitespace).reverse.dropWhile pyWhitespace).reverse)

/-- Helper for `validate_url`, modelling lines 70-72 of
`content_sourcing_updated.py`: remove one trailing `)` when present
(`url[:-1]`). -/
def stripParen (s : String) : String :=
  if strEndsWith s ")" then String.mk s.data.dropLast else s

/-- Model of `validate_url` (content_sourcing_updated.py, lines 68-80): strip
surrounding whitespace, drop one trailing `)`, and call `urlparse`.  When
`urlparse` raises (see `urlparseRaises` — reachable, e.g. on `http://[`),
the `except` branch returns `""`; otherwise `https://` is prepended exactly
when no scheme was found. -/
def validate_url (url : String) : String :=
  if urlparseRaises (stripParen (strStrip url)) then ""
  else if hasScheme (stripParen (strStrip url)) then stripParen (strStrip url)
  else "https://" ++ stripParen (strStrip url)

/-- Directory part of a path: everything up to and including the last `/`,
and `/` itself when the path has no slash (Python resolves a relative
reference against the netloc root when the base path is empty). -/
def dirPart (path : List Char) : List Char :=
  match (path.reverse.dropWhile (fun c => c != '/')).reverse with
  | [] => ['/']
  | p => p

/-- Model of Python `urllib.parse.urljoin`, simplified: dot-segment
normalization, the `uses_relative` scheme whitelist and the trimming of the
base query/fragment are omitted (none of the verified properties depend on
them).  An absolute reference is returned unchanged; a reference starting
with `//` keeps only the base scheme; a rooted reference keeps scheme and
authority; any other reference is resolved against the directory of the base
path. -/
def urljoin (base url : String) : String :=
  if base = "" then url
  else if url = "" then base
  else if hasScheme url then url
  else
    match splitScheme base with
    | none => url
    | some (scheme, rest) =>
      if "//".data.isPrefixOf url.data then
        (scheme ++ ":") ++ url
      else
        let hasNetloc := "//".data.isPrefixOf rest.data
        let netloc := if hasNetloc then
            (rest.data.drop 2).takeWhile (fun c => c != '/' && c != '?' && c != '#')
          else []
        let bpath := if hasNetloc then
            (rest.data.drop 2).dropWhile (fun c => c != '/' && c != '?' && c != '#')
          else rest.data
        let authority := if hasNetloc then String.mk ('/' :: '/' :: netloc) else ""
        if "/".data.isPrefixOf url.data then
          ((scheme ++ ":") ++ authority) ++ url
        else
          (((scheme ++ ":") ++ authority) ++ String.mk (dirPart bpath)) ++ url

theorem strEndsWith_append (p u t : String) (h : strEndsWith u t = true) :
    strEndsWith (p ++ u) t = true := by
  rw [strEndsWith, List.isSuffixOf_iff_suffix] at h ⊢
  rw [String.data_append]
  exact h.trans (List.suffix_append p.data u.data)

theorem urljoin_cases (base url : String) :
    urljoin base url = url ∨ url = "" ∨ ∃ p, urljoin base url = p ++ url := by
  unfold urljoin
  split
  · exact Or.inl rfl
  · split
    · next hu => exact Or.inr (Or.inl hu)
    · split
      · exact Or.inl rfl
      · rcases h : splitScheme base with _ | ⟨scheme, rest⟩
        · exact Or.inl rfl
        · simp only []
          split
          · exact Or.inr (Or.inr ⟨scheme ++ ":", rfl⟩)
          · split
            · exact Or.inr (Or.inr ⟨_, rfl⟩)
            · exact Or.inr (Or.inr ⟨_, rfl⟩)

theorem strEndsWith_ne_empty {u t : String} (h : strEndsWith u t = true)
    (ht : t ≠ "") : u ≠ "" := by
  intro hu
  subst hu
  rw [strEndsWith, List.isSuffixOf_iff_suffix] at h
  have hn := List.eq_nil_of_suffix_nil h
  apply ht
  cases t with
  | mk d => simpa [String.ext_iff] using hn

theorem urljoin_endsWith {base url t : String} (h : strEndsWith url t = true)
    (ht : t ≠ "") : strEndsWith (urljoin base url) t = true := by
  rcases urljoin_cases base url with hc | hc | ⟨p, hc⟩
  · rwa [hc]
  · exact absurd hc (strEndsWith_ne_empty h ht)
  · rw [hc]
    exact strEndsWith_append p url t h

/-- Accumulator worker for `firstDedup`: keep the elements not yet seen. -/
def firstDedupAux {α : Type} [DecidableEq α] : List α → List α → List α
  | [], _ => []
  | x :: xs, seen =>
    if x ∈ seen then firstDedupAux xs seen
    else x :: firstDedupAux xs (x :: seen)

/-- Deterministic model of Python duplicate removal (`list(set(...))` and
`dict` key grouping): keep the first occurrence of every element.  The order
of `list(set(...))` in Python is unspecified; none of the verified properties
depend on the order, only on the resulting elements being duplicate-free. -/
def firstDedup {α : Type} [DecidableEq α] (l : List α) : List α :=
  firstDedupAux l []

theorem mem_firstDedupAux {α : Type} [DecidableEq α] (a : α) :
    ∀ (l seen : List α), a ∈ firstDedupAux l seen ↔ a ∈ l ∧ a ∉ seen := by
  intro l
  induction l with
  | nil => intro seen; simp [firstDedupAux]
  | cons x xs ih =>
    intro seen
    rw [firstDedupAux]
    split
    · next hx =>
      rw [ih, List.mem_cons]
      constructor
      · rintro ⟨h, hs⟩
        exact ⟨Or.inr h, hs⟩
      · rintro ⟨h | h, hs⟩
        · exact absurd (h ▸ hx) hs
        · exact ⟨h, hs⟩
    · next hx =>
      rw [List.mem_cons, ih, List.mem_cons]
      by_cases ha : a = x
      · subst ha
        simp [hx]
      · simp [ha]

theorem firstDedupAux_nodup {α : Type} [DecidableEq α] :
    ∀ (l seen : List α), (firstDedupAux l seen).Nodup := by
  intro l
  induction l with
  | nil => intro seen; simp [firstDedupAux]
  | cons x xs ih =>
    intro seen
    rw [firstDedupAux]
    split
    · exact ih seen
    · refine List.nodup_cons.2 ⟨?_, ih (x :: seen)⟩
      rw [mem_firstDedupAux]
      rintro ⟨-, hs⟩
      exact hs (List.mem_cons_self x seen)

theorem mem_firstDedup {α : Type} [DecidableEq α] (a : α) (l : List α) :
    a ∈ firstDedup l ↔ a ∈ l := by
  rw [firstDedup, mem_firstDedupAux]
  simp

theorem firstDedup_nodup {α : Type} [DecidableEq α] (l : List α) :
    (firstDedup l).Nodup := firstDedupAux_nodup l []

theorem urlPreprocess_https_append (t : String) :
    urlPreprocess ("https://" ++ t) =
      'h' :: 't' :: 't' :: 'p' :: 's' :: ':' :: '/' :: '/' ::
        (t.data.filter (fun c => !(c == '\t' || c == '\r' || c == '\n'))) := by
  have hd : ("https://" ++ t) =
      String.mk ('h' :: 't' :: 't' :: 'p' :: 's' :: ':' :: '/' :: '/' :: t.data) := by
    rw [String.ext_iff]
    simp [String.data_append]
  rw [hd]
  rfl

theorem hasScheme_https_append (t : String) : hasScheme ("https://" ++ t) = true := by
  rw [hasScheme, splitScheme, urlPreprocess_https_append]
  rfl

theorem https_append_ne_empty (t : String) : "https://" ++ t ≠ "" := by
  intro h
  have hd : "https://".data ++ t.data = ([] : List Char) := by
    rw [← String.data_append, h]
  rcases List.append_eq_nil.mp hd with ⟨h1, -⟩
  exact absurd h1 (by decide)

theorem hasScheme_ne_empty {t : String} (h : hasScheme t = true) : t ≠ "" := by
  intro he
  rw [he] at h
  exact absurd h (by decide)

/-- Links whose `href` attribute ends in `.pdf`
(content_sourcing_updated.py, line 119). -/
def pdfHrefs (hrefs : List String) : List String :=
  hrefs.filter (fun h => strEndsWith h ".pdf")

/-- Subject filter of `scrape_pdf_links` (line 125): the lowercased link
contains the lowercased subject or the string `math`. -/
def subjectMatch (subject l : String) : Bool :=
  containsSub (strLower l) (strLower subject) || containsSub (strLower l) "math"

/-- Subject filtering with fallback (lines 125-127): when no link matches the
subject, fall back to all discovered PDF links. -/
def subjectFiltered (subject : String) (links : List String) : List String :=
  if (links.filter (subjectMatch subject)).isEmpty then links
  else links.filter (subjectMatch subject)

/-- Absolute-URL resolution and validation loop of `scrape_pdf_links`
(lines 130-134): resolve each link against the page URL, keep those accepted
by `is_valid_pdf` that do not mention `web.archive.org`.  `is_valid_pdf`
performs a network request, so it is an oracle parameter here. -/
def validLinks (isValidPdf : String → Bool) (u : String) (links : List String) :
    List String :=
  (links.map (fun l => urljoin u l)).filter
    (fun a => isValidPdf a && !containsSub a "web.archive.org")

/-- Final stage of `scrape_pdf_links` (lines 136-141): empty result when no
link validated, otherwise deduplicate (`list(set(...))`) and keep at most
10 links. -/
def processLinks (isValidPdf : String → Bool) (u : String) (links : List String) :
    List String :=
  if (validLinks isValidPdf u links).isEmpty then []
  else (firstDedup (validLinks isValidPdf u links)).take 10

/-- Model of `scrape_pdf_links` (content_sourcing_updated.py, lines 104-144).
`fetch` is the oracle for the `requests.get` + BeautifulSoup step: it returns
the list of `href` attributes of the page's anchors, or `none` when the
request or the parse raises (the `except` branch, which returns `[]`).  The
Python default for `subject` is `"algebra"`. -/
def scrape_pdf_links (fetch : String → Option (List String))
    (isValidPdf : String → Bool) (url subject : String) : List String :=
  if validate_url url = "" then []
  else
    match fetch (validate_url url) with
    | none => []
    | some hrefs =>
      processLinks isValidPdf (validate_url url)
        (subjectFiltered subject (pdfHrefs hrefs))

theorem subjectFiltered_subset (subject : String) (links : List String) :
    ∀ x ∈ subjectFiltered subject links, x ∈ links := by
  intro x hx
  unfold subjectFiltered at hx
  split at hx
  · exact hx
  · exact (List.mem_filter.1 hx).1

theorem mem_pdfHrefs {hrefs : List String} {l : String} (h : l ∈ pdfHrefs hrefs) :
    strEndsWith l ".pdf" = true := (List.mem_filter.1 h).2

theorem processLinks_sound (isValidPdf : String → Bool) (u : String)
    (links : List String) (Hl : ∀ l ∈ links, strEndsWith l ".pdf" = true)
    (Hv : ∀ x, isValidPdf x = true → hasScheme x = true) :
    (processLinks isValidPdf u links).Nodup ∧
    (processLinks isValidPdf u links).length ≤ 10 ∧
    ∀ x ∈ processLinks isValidPdf u links,
      strEndsWith x ".pdf" = true ∧ isValidPdf x = true ∧
      containsSub x "web.archive.org" = false ∧ hasScheme x = true := by
  unfold processLinks
  split
  · simp
  · refine ⟨(firstDedup_nodup _).sublist (List.take_sublist _ _), ?_, ?_⟩
    · rw [List.length_take]
      exact min_le_left _ _
    · intro x hx
      have hx1 : x ∈ firstDedup (validLinks isValidPdf u links) :=
        List.take_subset _ _ hx
      rw [mem_firstDedup] at hx1
      unfold validLinks at hx1
      rw [List.mem_filter] at hx1
      obtain ⟨hmem, hpred⟩ := hx1
      rw [List.mem_map] at hmem
      obtain ⟨l, hl, hxl⟩ := hmem
      rw [Bool.and_eq_true, Bool.not_eq_true'] at hpred
      refine ⟨?_, hpred.1, hpred.2, Hv x hpred.1⟩
      rw [← hxl]
      exact urljoin_endsWith (Hl l hl) (by decide)

/-- C5: for every input URL and subject, the list returned by
`scrape_pdf_links` has no duplicates, has length at most 10, and every
element ends in `.pdf`, passed the `is_valid_pdf` check, does not contain
`web.archive.org`, and is an absolute URL (non-empty parsed scheme).
Absoluteness uses the hypothesis that the `is_valid_pdf` oracle accepts only
URLs with a scheme, which holds for the real `is_valid_pdf` because
`requests.head` raises on a URL without a scheme and the function then
returns `False`. -/
theorem C5_scrape_pdf_links (fetch : String → Option (List String))
    (isValidPdf : String → Bool) (url subject : String)
    (Hv : ∀ x, isValidPdf x = true → hasScheme x = true) :
    (scrape_pdf_links fetch isValidPdf url subject).Nodup ∧
    (scrape_pdf_links fetch isValidPdf url subject).length ≤ 10 ∧
    ∀ x ∈ scrape_pdf_links fetch isValidPdf url subject,
      strEndsWith x ".pdf" = true ∧ isValidPdf x = true ∧
      containsSub x "web.archive.org" = false ∧ hasScheme x = true := by
  unfold scrape_pdf_links
  split
  · simp
  · cases hf : fetch (validate_url url) with
    | none => simp
    | some hrefs =>
      exact processLinks_sound _ _ _
        (fun l hl => mem_pdfHrefs (subjectFiltered_subset _ _ l hl)) Hv

theorem C5_scrape_pdf_links_witness :
    (∀ x, hasScheme x = true → hasScheme x = true) ∧
    ((scrape_pdf_links (fun _ => some ["x.pdf"]) hasScheme "example.com" "x").Nodup ∧
     (scrape_pdf_links (fun _ => some ["x.pdf"]) hasScheme "example.com" "x").length ≤ 10 ∧
     ∀ y ∈ scrape_pdf_links (fun _ => some ["x.pdf"]) hasScheme "example.com" "x",
       strEndsWith y ".pdf" = true ∧ hasScheme y = true ∧
       containsSub y "web.archive.org" = false ∧ hasScheme y = true) :=
  ⟨fun _ h => h,
   C5_scrape_pdf_links (fun _ => some ["x.pdf"]) hasScheme "example.com" "x"
     (fun _ h => h)⟩

/-- C9: `scrape_pdf_links` is total at its interface.  The embedding returns
a plain list (every caught exception is modelled by a failure outcome that
the code turns into `[]`), so the theorem states the three guarantees with
observable content: an invalid URL — `validate_url` returning `""` through
its reachable `except` branch — yields `[]` (lines 107-109); a failure of
the request/parse step yields `[]` (the `except` branch of lines 142-144);
and when no discovered PDF link matches the subject the pipeline runs on all
discovered PDF links instead of failing. -/
theorem C9_scrape_pdf_links_total (fetch : String → Option (List String))
    (isValidPdf : String → Bool) (url subject : String) :
    (validate_url url = "" →
      scrape_pdf_links fetch isValidPdf url subject = []) ∧
    (fetch (validate_url url) = none →
      scrape_pdf_links fetch isValidPdf url subject = []) ∧
    (∀ hrefs, validate_url url ≠ "" → fetch (validate_url url) = some hrefs →
      ((pdfHrefs hrefs).filter (subjectMatch subject)).isEmpty = true →
      scrape_pdf_links fetch isValidPdf url subject =
        processLinks isValidPdf (validate_url url) (pdfHrefs hrefs)) := by
  refine ⟨?_, ?_, ?_⟩
  · intro hv
    unfold scrape_pdf_links
    rw [if_pos hv]
  · intro hf
    unfold scrape_pdf_links
    by_cases hv : validate_url url = ""
    · rw [if_pos hv]
    · rw [if_neg hv, hf]
  · intro hrefs hv hf he
    unfold scrape_pdf_links
    rw [if_neg hv, hf]
    have hs : subjectFiltered subject (pdfHrefs hrefs) = pdfHrefs hrefs := by
      unfold subjectFiltered
      rw [if_pos he]
    show processLinks isValidPdf (validate_url url)
        (subjectFiltered subject (pdfHrefs hrefs)) =
      processLinks isValidPdf (validate_url url) (pdfHrefs hrefs)
    rw [hs]

theorem C9_scrape_pdf_links_total_witness :
    scrape_pdf_links (fun _ => none) hasScheme "http://[" "algebra" = [] ∧
    scrape_pdf_links (fun _ => none) hasScheme "example.com" "algebra" = [] :=
  ⟨(C9_scrape_pdf_links_total (fun _ => none) hasScheme "http://[" "algebra").1
     (by decide),
   (C9_scrape_pdf_links_total (fun _ => none) hasScheme "example.com" "algebra").2.1
     rfl⟩

/-- C10: `validate_url` returns either the empty string or a URL whose
parsed scheme is non-empty.  The empty string is returned exactly when
`urlparse` raises on the whitespace-stripped, paren-stripped input (the
reachable `except` branch, e.g. on `http://[`); on every other input the
result is that stripped input with `https://` prepended exactly when it has
no scheme. -/
theorem C10_validate_url (s : String) :
    (validate_url s = "" ∨ hasScheme (validate_url s) = true) ∧
    (validate_url s = "" ↔ urlparseRaises (stripParen (strStrip s)) = true) ∧
    (validate_url s ≠ "" →
      validate_url s =
        (if hasScheme (stripParen (strStrip s)) then stripParen (strStrip s)
         else "https://" ++ stripParen (strStrip s))) := by
  unfold validate_url
  split
  · next hr => exact ⟨Or.inl rfl, iff_of_true rfl hr, fun hne => absurd rfl hne⟩
  · next hr =>
    split
    · next hsch =>
      refine ⟨Or.inr hsch, ?_, fun _ => rfl⟩
      exact iff_of_false (hasScheme_ne_empty hsch) hr
    · next hsch =>
      refine ⟨Or.inr (hasScheme_https_append _), ?_, fun _ => rfl⟩
      exact iff_of_false (https_append_ne_empty _) hr

theorem C10_validate_url_witness :
    validate_url "http://[" = "" ∧
    validate_url "example.com" = "https://example.com" :=
  ⟨(C10_validate_url "http://[").2.1.mpr (by decide),
   by
     have h := (C10_validate_url "example.com").2.2 (by decide)
     rw [h]
     decide⟩

/-- Minimal JSON value model for the values exchanged with the `json` module
and the LLM formatting step. -/
inductive Json where
  | null : Json
  | bool (b : Bool) : Json
  | num (q : ℚ) : Json
  | str (s : String) : Json
  | arr (items : List Json) : Json
  | obj (entries : List (String × Json)) : Json

/-- Retry loop of `format_pdf_links` (content_sourcing_updated.py,
lines 148-171): one element of the list per attempt of `range(max_retries)`.
`llm` is the oracle for one `ChatGroq` invocation (`none` models a raised
exception); `loads` is the oracle for `json.loads` (`none` models
`JSONDecodeError`).  An attempt succeeds when the stripped LLM output parses,
and the stripped output is returned. -/
def format_attempts (llm : Nat → Option String) (loads : String → Option Json) :
    List Nat → Option String
  | [] => none
  | i :: rest =>
    match llm i with
    | none => format_attempts llm loads rest
    | some content =>
      match loads (strStrip content) with
      | none => format_attempts llm loads rest
      | some _ => some (strStrip content)

/-- JSON value of the fallback `json.dumps([{"url": url} for url in pdf_links])`
of `format_pdf_links` (line 173): the list of one-key objects in input order. -/
def urlObjList (links : List String) : Json :=
  Json.arr (links.map (fun u => Json.obj [("url", Json.str u)]))

/-- Model of `format_pdf_links` (content_sourcing_updated.py, lines 146-173):
three LLM attempts, then the deterministic fallback serialized with the
`dumps` oracle for `json.dumps`. -/
def format_pdf_links (llm : Nat → Option String) (loads : String → Option Json)
    (dumps : Json → String) (links : List String) : String :=
  match format_attempts llm loads [0, 1, 2] with
  | some s => s
  | none => dumps (urlObjList links)

/-- Item iteration of `source_pdf_content` (lines 283-284): a non-list JSON
value is wrapped into a one-element list. -/
def itemsOf : Json → List Json
  | Json.arr l => l
  | v => [v]

theorem format_attempts_valid (llm : Nat → Option String)
    (loads : String → Option Json) :
    ∀ l s, format_attempts llm loads l = some s → (loads s).isSome = true := by
  intro l
  induction l with
  | nil => intro s h; simp [format_attempts] at h
  | cons i rest ih =>
    intro s h
    rw [format_attempts] at h
    split at h
    · exact ih s h
    · split at h
      · exact ih s h
      · injection h with h
        subst h
        rename_i hj
        simp [hj]

/-- C6: `format_pdf_links` makes at most 3 LLM attempts (its output only
depends on the oracle's answers to attempts 0, 1, 2), always returns a string
accepted by `json.loads` (assuming the library law that `json.loads` parses
every `json.dumps` output), and when all 3 attempts fail it returns the
serialization of the list of objects with a single `url` key, preserving the
order and count of the input URLs. -/
theorem C6_format_pdf_links (llm llm' : Nat → Option String)
    (loads : String → Option Json) (dumps : Json → String) (links : List String)
    (Ha : ∀ i, i < 3 → llm i = llm' i)
    (Hr : ∀ v, (loads (dumps v)).isSome = true) :
    format_pdf_links llm loads dumps links = format_pdf_links llm' loads dumps links ∧
    (loads (format_pdf_links llm loads dumps links)).isSome = true ∧
    (format_attempts llm loads [0, 1, 2] = none →
      format_pdf_links llm loads dumps links = dumps (urlObjList links) ∧
      (itemsOf (urlObjList links)).length = links.length ∧
      ∀ k, (itemsOf (urlObjList links)).get? k =
        (links.get? k).map (fun u => Json.obj [("url", Json.str u)])) := by
  have h0 := Ha 0 (by decide)
  have h1 := Ha 1 (by decide)
  have h2 := Ha 2 (by decide)
  have he : format_attempts llm loads [0, 1, 2] =
      format_attempts llm' loads [0, 1, 2] := by
    simp only [format_attempts, h0, h1, h2]
  refine ⟨?_, ?_, ?_⟩
  · unfold format_pdf_links
    rw [he]
  · cases hfa : format_attempts llm loads [0, 1, 2] with
    | none =>
      unfold format_pdf_links
      rw [hfa]
      exact Hr _
    | some s =>
      unfold format_pdf_links
      rw [hfa]
      exact format_attempts_valid llm loads _ s hfa
  · intro h
    unfold format_pdf_links
    rw [h]
    refine ⟨rfl, ?_, ?_⟩
    · simp [itemsOf, urlObjList]
    · intro k
      simp [itemsOf, urlObjList]

/-- Oracle standing for an LLM whose every invocation raises. -/
def llm0 : Nat → Option String := fun _ => none

/-- Oracle standing for a `json.loads` that accepts every string. -/
def loads0 : String → Option Json := fun _ => some Json.null

/-- Oracle standing for a `json.dumps` for use with `loads0`. -/
def dumps0 : Json → String := fun _ => "[]"

theorem C6_format_pdf_links_witness :
    (∀ i, i < 3 → llm0 i = llm0 i) ∧
    (∀ v, (loads0 (dumps0 v)).isSome = true) ∧
    (format_pdf_links llm0 loads0 dumps0 ["a.pdf"] =
        format_pdf_links llm0 loads0 dumps0 ["a.pdf"] ∧
      (loads0 (format_pdf_links llm0 loads0 dumps0 ["a.pdf"])).isSome = true ∧
      (format_attempts llm0 loads0 [0, 1, 2] = none →
        format_pdf_links llm0 loads0 dumps0 ["a.pdf"] = dumps0 (urlObjList ["a.pdf"]) ∧
        (itemsOf (urlObjList ["a.pdf"])).length = (["a.pdf"] : List String).length ∧
        ∀ k, (itemsOf (urlObjList ["a.pdf"])).get? k =
          ((["a.pdf"] : List String).get? k).map
            (fun u => Json.obj [("url", Json.str u)]))) :=
  ⟨fun _ _ => rfl, fun _ => rfl,
   C6_format_pdf_links llm0 llm0 loads0 dumps0 ["a.pdf"]
     (fun _ _ => rfl) (fun _ => rfl)⟩

/-- Dataframe model for the uploaded CSV: ordered column names and rows of
cells, where a `none` cell models a pandas null (`NaN`; pandas reads an empty
CSV field as `NaN`). -/
structure DataFrame where
  columns : List String
  rows : List (List (Option String))

/-- Required columns of `validate_csv_format`
(Streamlit_Feedback_agent_ui.py, line 43). -/
def required_columns : List String :=
  ["student_id", "teacher_id", "objective", "question", "answer"]

/-- Model of `df.empty`: a dataframe is empty when either axis has length 0. -/
def dfEmpty (df : DataFrame) : Bool := df.rows.isEmpty || df.columns.isEmpty

/-- Cell of a row under a column name: the entry of the row at the column's
index, null when the column is absent or the row is too short. -/
def cellVal (cols : List String) (row : List (Option String)) (col : String) :
    Option String :=
  match cols.findIdx? (fun c => c == col) with
  | none => none
  | some i => row.getD i none

/-- Required columns missing from the dataframe (line 50). -/
def missingColumns (cols : List String) : List String :=
  required_columns.filter (fun c => !(cols.contains c))

/-- Model of `df.dropna(how='all')` (line 55): drop rows whose cells are all
null. -/
def dropnaAll (rows : List (List (Option String))) : List (List (Option String)) :=
  rows.filter (fun r => !r.all (fun c => c.isNone))

/-- Whether a row has a null value in some required column (line 58). -/
def rowMissing (cols : List String) (row : List (Option String)) : Bool :=
  required_columns.any (fun c => (cellVal cols row c).isNone)

/-- Rows counted by `empty_rows` in `validate_csv_format` (line 58): the
non-fully-empty rows with a null in a required column. -/
def nullRows (df : DataFrame) : List (List (Option String)) :=
  (dropnaAll df.rows).filter (rowMissing df.columns)

/-- Model of `validate_csv_format` (Streamlit_Feedback_agent_ui.py,
lines 41-67).  The extra-columns check of lines 63-65 only emits a UI warning
and does not affect the returned value, so it is not modelled. -/
def validate_csv_format (df : DataFrame) : Bool × String :=
  if dfEmpty df then (false, "CSV file is empty")
  else if !(missingColumns df.columns).isEmpty then
    (false, "Missing required columns: " ++
      String.intercalate ", " (missingColumns df.columns))
  else if 0 < (nullRows df).length then
    (false, "Found " ++ toString (nullRows df).length ++
      " rows with empty values in required columns")
  else
    (true, "CSV format is valid. Found " ++ toString (dropnaAll df.rows).length ++
      " valid records.")

/-- C8: `validate_csv_format` returns `False` exactly when the dataframe is
empty, a required column is missing, or some non-fully-empty row has a null
value in a required column; otherwise it returns `True`. -/
theorem C8_validate_csv_format (df : DataFrame) :
    (validate_csv_format df).1 = false ↔
      (dfEmpty df = true ∨
        (∃ c ∈ required_columns, c ∉ df.columns) ∨
        ∃ r ∈ df.rows, r.all (fun c => c.isNone) = false ∧
          rowMissing df.columns r = true) := by
  have hmiss : (missingColumns df.columns).isEmpty = true ↔
      ¬ ∃ c ∈ required_columns, c ∉ df.columns := by
    simp [missingColumns, List.isEmpty_iff, List.filter_eq_nil_iff]
  have hnull : 0 < (nullRows df).length ↔
      ∃ r ∈ df.rows, r.all (fun c => c.isNone) = false ∧
        rowMissing df.columns r = true := by
    rw [List.length_pos_iff_exists_mem]
    constructor
    · rintro ⟨r, hr⟩
      rw [nullRows, List.mem_filter, dropnaAll, List.mem_filter] at hr
      obtain ⟨⟨hrow, hall⟩, hm⟩ := hr
      exact ⟨r, hrow, by simpa using hall, hm⟩
    · rintro ⟨r, hrow, hall, hm⟩
      refine ⟨r, ?_⟩
      rw [nullRows, List.mem_filter, dropnaAll, List.mem_filter]
      exact ⟨⟨hrow, by simpa using hall⟩, hm⟩
  unfold validate_csv_format
  split_ifs with h1 h2 h3
  · exact iff_of_true rfl (Or.inl h1)
  · have hex : ∃ c ∈ required_columns, c ∉ df.columns := by
      by_contra hc
      rw [hmiss.2 hc] at h2
      simp at h2
    exact iff_of_true rfl (Or.inr (Or.inl hex))
  · exact iff_of_true rfl (Or.inr (Or.inr (hnull.1 h3)))
  · apply iff_of_false
    · simp
    · rintro (h | h | h)
      · exact h1 h
      · exact absurd h (hmiss.1 (by simpa using h2))
      · exact h3 (hnull.2 h)

/-- Fragment dictionary produced by `source_pdf_content`: an association list
from key to optional string value, where `none` models Python `None`. -/
abbrev Frag := List (String × Option String)

/-- Oracles for the external interactions of `source_pdf_content`.  Each
field takes a call-counter argument so that distinct calls of an interaction
may behave differently; a `none` result models a raised exception that the
code catches. `fmt` stands for the whole `format_pdf_links` call (whose
internal retry behaviour is modelled separately by `format_pdf_links`
above), `loads` for `json.loads`, `download` for `download_pdf` (returning
local path and filename), `extractText` for `extract_pdf_text`, `userInput`
for the `input()` prompt of the CK-12 branch, `uuid` for `uuid.uuid4()`. -/
structure SourceOracles where
  wikiText : Nat → String → String
  fetch : Nat → String → Option (List String)
  isValidPdf : Nat → String → Bool
  fmt : Nat → List String → String
  loads : Nat → String → Option Json
  uuid : Nat → String
  download : Nat → String → Option (String × String)
  extractText : Nat → String → Option String
  userInput : Nat → String

/-- URL extraction from one parsed JSON item (content_sourcing_updated.py,
lines 286-290): `item.get("url")` for a dict, the item itself for a string;
anything that is not a string is skipped by the caller (`none` here). -/
def urlOfItem : Json → Option String
  | Json.obj kvs =>
    match kvs.lookup "url" with
    | some (Json.str s) => some s
    | _ => none
  | Json.str s => some s
  | _ => none

/-- Per-item loop of `source_pdf_content` (lines 286-320): skip items without
a non-empty string URL ending in `.pdf`; draw a fragment id; on successful
download and text extraction append a PDF fragment dictionary.  The counter
advances once per oracle use (uuid, download, extraction). -/
def pdfItemLoop (O : SourceOracles) : List Json → List Frag → Nat → List Frag × Nat
  | [], acc, t => (acc, t)
  | item :: rest, acc, t =>
    match urlOfItem item with
    | none => pdfItemLoop O rest acc t
    | some u =>
      if u != "" && strEndsWith u ".pdf" then
        match O.download (t + 1) u with
        | none => pdfItemLoop O rest acc (t + 2)
        | some (lp, _fn) =>
          match O.extractText (t + 2) lp with
          | none => pdfItemLoop O rest acc (t + 3)
          | some txt =>
            pdfItemLoop O rest
              (acc ++ [[("fragment_id", some (O.uuid t)),
                        ("pdf_url", some u),
                        ("pdf_text", some txt),
                        ("local_path", some lp)]]) (t + 3)
      else pdfItemLoop O rest acc t

/-- Formatting-and-download stage of `source_pdf_content` (lines 272-320):
skip when no links were found, format the links, parse the result
(`continue` on a parse failure), wrap a non-list value, and run the item
loop. -/
def processPdfLinks (O : SourceOracles) (acc : List Frag) (t : Nat)
    (links : List String) : List Frag × Nat :=
  if links.isEmpty then (acc, t)
  else
    match O.loads (t + 1) (O.fmt t links) with
    | none => (acc, t + 2)
    | some j => pdfItemLoop O (itemsOf j) acc (t + 2)

/-- Wikipedia-branch append of `source_pdf_content` (lines 225-246): draw a
fragment id, scrape the page text, and append a Wikipedia fragment when the
text is non-empty. -/
def wikiAppend (O : SourceOracles) (acc : List Frag) (t : Nat) (u : String) :
    List Frag :=
  if O.wikiText (t + 1) u != "" then
    acc ++ [[("fragment_id", some (O.uuid t)),
             ("wiki_url", some u),
             ("wiki_text", some (O.wikiText (t + 1) u)),
             ("local_path", (none : Option String))]]
  else acc

/-- One iteration of the URL loop of `source_pdf_content` (lines 217-320):
skip invalid URLs; Wikipedia URLs get a text fragment and then PDF scraping;
URLs ending in `.pdf` are taken directly when valid; other URLs are scraped,
with the interactive CK-12 fallback when nothing was found. -/
def sourceStep (O : SourceOracles) (subject : String) (st : List Frag × Nat)
    (url0 : String) : List Frag × Nat :=
  if validate_url url0 = "" then st
  else if containsSub (validate_url url0) "wikipedia.org/wiki" then
    processPdfLinks O (wikiAppend O st.1 st.2 (validate_url url0)) (st.2 + 3)
      (scrape_pdf_links (O.fetch (st.2 + 2)) (O.isValidPdf (st.2 + 2))
        (validate_url url0) subject)
  else if strEndsWith (validate_url url0) ".pdf" then
    if O.isValidPdf st.2 (validate_url url0) then
      processPdfLinks O st.1 (st.2 + 1) [validate_url url0]
    else
      processPdfLinks O st.1 (st.2 + 1) []
  else if (scrape_pdf_links (O.fetch st.2 ) (O.isValidPdf st.2 )
        (validate_url url0) subject).isEmpty
      && containsSub (validate_url url0) "ck12.org" then
    if strStrip (O.userInput (st.2 + 1)) != ""
        && strEndsWith (strStrip (O.userInput (st.2 + 1))) ".pdf" then
      if O.isValidPdf (st.2 + 2) (validate_url (strStrip (O.userInput (st.2 + 1)))) then
        processPdfLinks O st.1 (st.2 + 3)
          [validate_url (strStrip (O.userInput (st.2 + 1)))]
      else (st.1, st.2 + 3)
    else (st.1, st.2 + 2)
  else
    processPdfLinks O st.1 (st.2 + 1)
      (scrape_pdf_links (O.fetch st.2 ) (O.isValidPdf st.2 )
        (validate_url url0) subject)

set_option linter.unusedVariables false in
/-- Model of `source_pdf_content` (content_sourcing_updated.py,
lines 211-327): fold the per-URL step over the source URLs.  The audit-log
writes are side effects without influence on the returned value and are not
modelled; `curriculum_id` only flows into those logs. -/
def source_pdf_content (O : SourceOracles) (curriculum_id : Int)
    (subject : String) (source_urls : List String) : List Frag :=
  (source_urls.foldl (sourceStep O subject) ([], 0)).1

/-- Shape of a Wikipedia-text fragment: exactly the keys `fragment_id`,
`wiki_url`, `wiki_text`, `local_path`, with a null `local_path`, a non-empty
`wiki_text`, and a source URL containing `wikipedia.org/wiki`. -/
def isWikiFrag (d : Frag) : Prop :=
  ∃ fid u txt, d = [("fragment_id", some fid), ("wiki_url", some u),
      ("wiki_text", some txt), ("local_path", (none : Option String))] ∧
    txt ≠ "" ∧ containsSub u "wikipedia.org/wiki" = true

/-- Shape of a PDF fragment: exactly the keys `fragment_id`, `pdf_url`,
`pdf_text`, `local_path`, with a URL ending in `.pdf` and a non-null local
path. -/
def isPdfFrag (d : Frag) : Prop :=
  ∃ fid u txt lp, d = [("fragment_id", some fid), ("pdf_url", some u),
      ("pdf_text", some txt), ("local_path", some lp)] ∧
    strEndsWith u ".pdf" = true

theorem pdf_frag_xor {fid u txt lp : String} (hu : strEndsWith u ".pdf" = true) :
    Xor' (isWikiFrag [("fragment_id", some fid), ("pdf_url", some u),
        ("pdf_text", some txt), ("local_path", some lp)])
      (isPdfFrag [("fragment_id", some fid), ("pdf_url", some u),
        ("pdf_text", some txt), ("local_path", some lp)]) := by
  refine Or.inr ⟨⟨fid, u, txt, lp, rfl, hu⟩, ?_⟩
  rintro ⟨f, u', t', heq, -, -⟩
  simp at heq

theorem wiki_frag_xor {fid u txt : String} (ht : txt ≠ "")
    (hu : containsSub u "wikipedia.org/wiki" = true) :
    Xor' (isWikiFrag [("fragment_id", some fid), ("wiki_url", some u),
        ("wiki_text", some txt), ("local_path", (none : Option String))])
      (isPdfFrag [("fragment_id", some fid), ("wiki_url", some u),
        ("wiki_text", some txt), ("local_path", (none : Option String))]) := by
  refine Or.inl ⟨⟨fid, u, txt, rfl, ht, hu⟩, ?_⟩
  rintro ⟨f, u', t', lp, heq, -⟩
  simp at heq

theorem pdfItemLoop_shape (O : SourceOracles) :
    ∀ (items : List Json) (acc : List Frag) (t : Nat),
      (∀ d ∈ acc, Xor' (isWikiFrag d) (isPdfFrag d)) →
      ∀ d ∈ (pdfItemLoop O items acc t).1, Xor' (isWikiFrag d) (isPdfFrag d) := by
  intro items
  induction items with
  | nil => intro acc t H; exact H
  | cons item rest ih =>
    intro acc t H
    rw [pdfItemLoop]
    split
    · exact ih acc t H
    · split
      · next hcond =>
        split
        · exact ih acc (t + 2) H
        · split
          · exact ih acc (t + 3) H
          · apply ih
            intro d hd
            rw [List.mem_append] at hd
            rcases hd with hd | hd
            · exact H d hd
            · rw [List.mem_singleton] at hd
              subst hd
              rw [Bool.and_eq_true] at hcond
              exact pdf_frag_xor hcond.2
      · exact ih acc t H

theorem processPdfLinks_shape (O : SourceOracles) (acc : List Frag) (t : Nat)
    (links : List String) (H : ∀ d ∈ acc, Xor' (isWikiFrag d) (isPdfFrag d)) :
    ∀ d ∈ (processPdfLinks O acc t links).1, Xor' (isWikiFrag d) (isPdfFrag d) := by
  unfold processPdfLinks
  split
  · exact H
  · split
    · exact H
    · exact pdfItemLoop_shape O _ acc (t + 2) H

theorem wikiAppend_shape (O : SourceOracles) (acc : List Frag) (t : Nat)
    (u : String) (H : ∀ d ∈ acc, Xor' (isWikiFrag d) (isPdfFrag d))
    (hu : containsSub u "wikipedia.org/wiki" = true) :
    ∀ d ∈ wikiAppend O acc t u, Xor' (isWikiFrag d) (isPdfFrag d) := by
  unfold wikiAppend
  split
  · next hne =>
    intro d hd
    rw [List.mem_append] at hd
    rcases hd with hd | hd
    · exact H d hd
    · rw [List.mem_singleton] at hd
      subst hd
      exact wiki_frag_xor (by simpa using hne) hu
  · exact H

theorem sourceStep_shape (O : SourceOracles) (subject : String)
    (st : List Frag × Nat) (url0 : String)
    (H : ∀ d ∈ st.1, Xor' (isWikiFrag d) (isPdfFrag d)) :
    ∀ d ∈ (sourceStep O subject st url0).1, Xor' (isWikiFrag d) (isPdfFrag d) := by
  unfold sourceStep
  split
  · exact H
  · split
    · next hwiki =>
      exact processPdfLinks_shape O _ _ _ (wikiAppend_shape O st.1 st.2 _ H hwiki)
    · split
      · split
        · exact processPdfLinks_shape O _ _ _ H
        · exact processPdfLinks_shape O _ _ _ H
      · split
        · split
          · split
            · exact processPdfLinks_shape O _ _ _ H
            · exact H
          · exact H
        · exact processPdfLinks_shape O _ _ _ H

theorem foldl_sourceStep_shape (O : SourceOracles) (subject : String) :
    ∀ (urls : List String) (st : List Frag × Nat),
      (∀ d ∈ st.1, Xor' (isWikiFrag d) (isPdfFrag d)) →
      ∀ d ∈ (urls.foldl (sourceStep O subject) st).1,
        Xor' (isWikiFrag d) (isPdfFrag d) := by
  intro urls
  induction urls with
  | nil => intro st H; exact H
  | cons u rest ih =>
    intro st H
    rw [List.foldl_cons]
    exact ih _ (sourceStep_shape O subject st u H)

/-- C7: every element of the list returned by `source_pdf_content` has
exactly one of the two fragment shapes — a Wikipedia-text fragment (keys
`fragment_id`, `wiki_url`, `wiki_text`, `local_path`; null `local_path`;
non-empty `wiki_text`; source URL containing `wikipedia.org/wiki`) or a PDF
fragment (keys `fragment_id`, `pdf_url`, `pdf_text`, `local_path`; URL
ending in `.pdf`; non-null `local_path`). -/
theorem C7_source_pdf_content (O : SourceOracles) (curriculum_id : Int)
    (subject : String) (source_urls : List String) (d : Frag)
    (hd : d ∈ source_pdf_content O curriculum_id subject source_urls) :
    Xor' (isWikiFrag d) (isPdfFrag d) := by
  refine foldl_sourceStep_shape O subject source_urls ([], 0) ?_ d hd
  intro d hd
  simp at hd

/-- Concrete oracle assignment for the C7 witness: the Wikipedia scrape
returns a fixed text, page fetches return no links, everything else fails or
is inert. -/
def O0 : SourceOracles where
  wikiText := fun _ _ => "T"
  fetch := fun _ _ => some []
  isValidPdf := fun _ _ => false
  fmt := fun _ _ => ""
  loads := fun _ _ => none
  uuid := fun _ => "id"
  download := fun _ _ => none
  extractText := fun _ _ => none
  userInput := fun _ => ""

/-- Wikipedia fragment produced by `source_pdf_content` under `O0`. -/
def wikiW : Frag :=
  [("fragment_id", some "id"),
   ("wiki_url", some "https://en.wikipedia.org/wiki/Algebra"),
   ("wiki_text", some "T"),
   ("local_path", (none : Option String))]

theorem C7_source_pdf_content_witness : Xor' (isWikiFrag wikiW) (isPdfFrag wikiW) :=
  C7_source_pdf_content O0 1 "algebra" ["https://en.wikipedia.org/wiki/Algebra"]
    wikiW (by decide)

/-- Modelled from the spec: one scored assessment record (§3 DATA MODEL) of
the feedback aggregator, whose implementation file
(`agant_updated_feedback_aggent.py`) is not among the available sources.
Python float scores are modelled as exact rationals. -/
structure AssessmentRecord where
  student_id : String
  teacher_id : String
  objective : String
  question : String
  answer : String
  score : ℚ
  bloom_level : String
  question_type : String
deriving DecidableEq

/-- Modelled from the spec: the aggregator configuration surface (§6), with
the documented defaults 0.7 / 0.6 / 0.6 / 0.5 / 3 / 3. -/
structure AggConfig where
  mastery_threshold : ℚ
  low_performer_threshold : ℚ
  gap_threshold : ℚ
  misunderstanding_threshold : ℚ
  top_k : Nat
  bottom_k : Nat
deriving DecidableEq

/-- Arithmetic mean of a list of scores (0 on the empty list, which the
aggregator never takes: every group is built from at least one record). -/
def mean (l : List ℚ) : ℚ := l.sum / l.length

/-- Distinct student ids of the input, in first-occurrence order (Python
`dict` grouping preserves insertion order). -/
def studentIds (rs : List AssessmentRecord) : List String :=
  firstDedup (rs.map (fun r => r.student_id))

/-- Records of one student, in input order. -/
def recordsOfStudent (rs : List AssessmentRecord) (s : String) :
    List AssessmentRecord :=
  rs.filter (fun r => r.student_id == s)

/-- Scores of one student, in input order. -/
def studentScores (rs : List AssessmentRecord) (s : String) : List ℚ :=
  (recordsOfStudent rs s).map (fun r => r.score)

/-- Overall average score of one student. -/
def studentAvg (rs : List AssessmentRecord) (s : String) : ℚ :=
  mean (studentScores rs s)

/-- Modelled from the spec: per-key mean breakdown (§4.1 step 1) — group the
records by a key and take the mean score of each group. -/
def breakdown (rs : List AssessmentRecord) (key : AssessmentRecord → String) :
    List (String × ℚ) :=
  (firstDedup (rs.map key)).map
    (fun k => (k, mean ((rs.filter (fun r => key r == k)).map (fun r => r.score))))

/-- Trend epsilon of §4.1 step 1 (0.05 on a scale of 0 to 1). -/
def trendEpsilon : ℚ := 1 / 20

/-- Modelled from the spec: performance trend (§4.1 step 1) — compare the
mean of the first half of the scores, in input order, against the mean of
the second half (middle record of an odd count included in the second
half). -/
def trendOf (scores : List ℚ) : String :=
  if scores.length < 2 then "insufficient data"
  else if mean (scores.take (scores.length / 2)) + trendEpsilon <
      mean (scores.drop (scores.length / 2)) then "improving"
  else if mean (scores.drop (scores.length / 2)) <
      mean (scores.take (scores.length / 2)) - trendEpsilon then "declining"
  else "stable"

/-- Modelled from the spec: the per-student summary (§3 StudentSummary).
The records carry no separate display name, so the student id stands in for
the name. -/
structure StudentSummary where
  name : String
  average_score : ℚ
  total_assessments : Nat
  performance_trend : String
  objective_breakdown : List (String × ℚ)
  bloom_breakdown : List (String × ℚ)
  assessments : List AssessmentRecord
deriving DecidableEq

/-- Build the summary of one student (§4.1 step 1). -/
def mkStudentSummary (rs : List AssessmentRecord) (s : String) : StudentSummary :=
  { name := s
    average_score := studentAvg rs s
    total_assessments := (recordsOfStudent rs s).length
    performance_trend := trendOf (studentScores rs s)
    objective_breakdown := breakdown (recordsOfStudent rs s) (fun r => r.objective)
    bloom_breakdown := breakdown (recordsOfStudent rs s) (fun r => r.bloom_level)
    assessments := recordsOfStudent rs s }

/-- Distinct teacher ids of the input, in first-occurrence order. -/
def teacherIds (rs : List AssessmentRecord) : List String :=
  firstDedup (rs.map (fun r => r.teacher_id))

/-- Records of one teacher (the record's own `teacher_id` field is taken as
authoritative, as §4.1 step 2 allows). -/
def recordsOfTeacher (rs : List AssessmentRecord) (t : String) :
    List AssessmentRecord :=
  rs.filter (fun r => r.teacher_id == t)

/-- Smallest element of a list of scores (0 on the empty list). -/
def listMin : List ℚ → ℚ
  | [] => 0
  | x :: xs => xs.foldl min x

/-- Largest element of a list of scores (0 on the empty list). -/
def listMax : List ℚ → ℚ
  | [] => 0
  | x :: xs => xs.foldl max x

/-- Median in the sense of Python `statistics.median`: middle element of the
sorted scores, or the mean of the two middle elements for an even count. -/
def median (l : List ℚ) : ℚ :=
  if l.length = 0 then 0
  else if l.length % 2 = 1 then (l.mergeSort (fun a b => decide (a ≤ b))).getD (l.length / 2) 0
  else ((l.mergeSort (fun a b => decide (a ≤ b))).getD (l.length / 2 - 1) 0 +
    (l.mergeSort (fun a b => decide (a ≤ b))).getD (l.length / 2) 0) / 2

/-- Modelled from the spec: the per-teacher summary (§3 TeacherSummary),
with the score distribution flattened into four fields. -/
structure TeacherSummary where
  teacher_name : String
  average_score : ℚ
  total_students : Nat
  dist_min : ℚ
  dist_max : ℚ
  dist_median : ℚ
  dist_average : ℚ
  top_students : List String
  low_students : List String
  summary : String
deriving DecidableEq

/-- Build the summary of one teacher (§4.1 step 2): statistics over the
teacher's records, and the teacher's students ranked by their overall
`StudentSummary` average for the top and bottom lists. -/
def mkTeacherSummary (cfg : AggConfig) (rs : List AssessmentRecord)
    (t : String) : TeacherSummary :=
  { teacher_name := t
    average_score := mean ((recordsOfTeacher rs t).map (fun r => r.score))
    total_students := (firstDedup ((recordsOfTeacher rs t).map (fun r => r.student_id))).length
    dist_min := listMin ((recordsOfTeacher rs t).map (fun r => r.score))
    dist_max := listMax ((recordsOfTeacher rs t).map (fun r => r.score))
    dist_median := median ((recordsOfTeacher rs t).map (fun r => r.score))
    dist_average := mean ((recordsOfTeacher rs t).map (fun r => r.score))
    top_students := ((firstDedup ((recordsOfTeacher rs t).map (fun r => r.student_id))).mergeSort
      (fun a b => decide (studentAvg rs b ≤ studentAvg rs a))).take cfg.top_k
    low_students := ((firstDedup ((recordsOfTeacher rs t).map (fun r => r.student_id))).mergeSort
      (fun a b => decide (studentAvg rs a ≤ studentAvg rs b))).take cfg.bottom_k
    summary := "Teacher " ++ t ++ " has an average score of " ++
      toString (mean ((recordsOfTeacher rs t).map (fun r => r.score))) ++ "." }

/-- Distinct objectives of the input, in first-occurrence order. -/
def objectiveIds (rs : List AssessmentRecord) : List String :=
  firstDedup (rs.map (fun r => r.objective))

/-- Records of one objective. -/
def recordsOfObjective (rs : List AssessmentRecord) (o : String) :
    List AssessmentRecord :=
  rs.filter (fun r => r.objective == o)

/-- Average score for one objective. -/
def objectiveAvg (rs : List AssessmentRecord) (o : String) : ℚ :=
  mean ((recordsOfObjective rs o).map (fun r => r.score))

/-- Mastery percentage (§4.1 step 3): the fraction of the objective's
records scoring at or above the mastery threshold, times 100. -/
def masteryPct (cfg : AggConfig) (rs : List AssessmentRecord) (o : String) : ℚ :=
  100 * (((recordsOfObjective rs o).filter
      (fun r => decide (cfg.mastery_threshold ≤ r.score))).length : ℚ) /
    ((recordsOfObjective rs o).length : ℚ)

/-- Modelled from the spec: the per-objective summary (§3 ObjectiveSummary). -/
structure ObjectiveSummary where
  average_score : ℚ
  total_questions : Nat
  mastery_percentage : ℚ
  summary : String
deriving DecidableEq

/-- Build the summary of one objective (§4.1 step 3). -/
def mkObjectiveSummary (cfg : AggConfig) (rs : List AssessmentRecord)
    (o : String) : ObjectiveSummary :=
  { average_score := objectiveAvg rs o
    total_questions := (recordsOfObjective rs o).length
    mastery_percentage := masteryPct cfg rs o
    summary := "Objective " ++ o ++ " has an average score of " ++
      toString (objectiveAvg rs o) ++ "." }

/-- Modelled from the spec: a learning-gap entry (§3 LearningGap). -/
structure LearningGap where
  average_score : ℚ
  mastery_percentage : ℚ
  recommendation : String
deriving DecidableEq

/-- Objectives flagged as learning gaps (§4.1 step 4): average score below
the gap threshold, or mastery percentage below the gap threshold expressed
as a percentage (the spec leaves the exact percentage threshold open; the
gap threshold times 100 is taken here). -/
def gapObjectives (cfg : AggConfig) (rs : List AssessmentRecord) : List String :=
  (objectiveIds rs).filter
    (fun o => decide (objectiveAvg rs o < cfg.gap_threshold) ||
      decide (masteryPct cfg rs o < 100 * cfg.gap_threshold))

/-- Build one learning-gap entry (§4.1 step 4). -/
def mkLearningGap (cfg : AggConfig) (rs : List AssessmentRecord)
    (o : String) : LearningGap :=
  { average_score := objectiveAvg rs o
    mastery_percentage := masteryPct cfg rs o
    recommendation := "Review the objective " ++ o ++ " with additional practice." }

/-- Modelled from the spec: a low-performing-student entry
(§3 LowPerformingStudent). -/
structure LowPerformingStudent where
  student_id : String
  name : String
  average_score : ℚ
  weak_objectives : List (String × ℚ)
  weak_bloom_levels : List (String × ℚ)
  recommendation : String
deriving DecidableEq

/-- Students flagged as low performers (§4.1 step 5): overall average
strictly below the low-performer threshold. -/
def lowPerformerIds (cfg : AggConfig) (rs : List AssessmentRecord) : List String :=
  (studentIds rs).filter
    (fun s => decide (studentAvg rs s < cfg.low_performer_threshold))

/-- Build one low-performing-student entry (§4.1 step 5): the weak areas are
the below-threshold entries of the student's breakdown maps. -/
def mkLowPerforming (cfg : AggConfig) (rs : List AssessmentRecord)
    (s : String) : LowPerformingStudent :=
  { student_id := s
    name := s
    average_score := studentAvg rs s
    weak_objectives := (breakdown (recordsOfStudent rs s) (fun r => r.objective)).filter
      (fun p => decide (p.2 < cfg.low_performer_threshold))
    weak_bloom_levels := (breakdown (recordsOfStudent rs s) (fun r => r.bloom_level)).filter
      (fun p => decide (p.2 < cfg.low_performer_threshold))
    recommendation := "Provide additional support for " ++ s ++ "." }

/-- Modelled from the spec: a misunderstood-concept entry
(§3 MisunderstoodConcept). -/
structure MisunderstoodConcept where
  concept : String
  question : String
  average_score : ℚ
  recommendation : String
deriving DecidableEq

/-- Distinct question texts of the input, in first-occurrence order. -/
def questionIds (rs : List AssessmentRecord) : List String :=
  firstDedup (rs.map (fun r => r.question))

/-- Average score of one question across all students (§4.1 step 6). -/
def questionAvg (rs : List AssessmentRecord) (q : String) : ℚ :=
  mean ((rs.filter (fun r => r.question == q)).map (fun r => r.score))

/-- Concept label of a question: the objective of the first record carrying
that question. -/
def conceptOf (rs : List AssessmentRecord) (q : String) : String :=
  match rs.find? (fun r => r.question == q) with
  | some r => r.objective
  | none => ""

/-- Questions flagged as misunderstood (§4.1 step 6): question average
strictly below the misunderstanding threshold. -/
def misunderstoodIds (cfg : AggConfig) (rs : List AssessmentRecord) : List String :=
  (questionIds rs).filter
    (fun q => decide (questionAvg rs q < cfg.misunderstanding_threshold))

/-- Build one misunderstood-concept entry (§4.1 step 6). -/
def mkMisunderstood (rs : List AssessmentRecord) (q : String) :
    MisunderstoodConcept :=
  { concept := conceptOf rs q
    question := q
    average_score := questionAvg rs q
    recommendation := "Revisit the concept " ++ conceptOf rs q ++ " in class." }

/-- Modelled from the spec: the aggregator's output (§3 FeedbackSummary),
with maps as association lists in first-insertion order. -/
structure FeedbackSummary where
  student_summaries : List (String × StudentSummary)
  teacher_summaries : List (String × TeacherSummary)
  objective_summaries : List (String × ObjectiveSummary)
  learning_gaps : List (String × LearningGap)
  low_performing_students : List LowPerformingStudent
  misunderstood_concepts : List MisunderstoodConcept
deriving DecidableEq

/-- Modelled from the spec: the aggregator `generate_feedback` (§4.1) — a
pure fold of the record list into the six derived views. -/
def generate_feedback (cfg : AggConfig) (rs : List AssessmentRecord) :
    FeedbackSummary :=
  { student_summaries := (studentIds rs).map (fun s => (s, mkStudentSummary rs s))
    teacher_summaries := (teacherIds rs).map (fun t => (t, mkTeacherSummary cfg rs t))
    objective_summaries := (objectiveIds rs).map (fun o => (o, mkObjectiveSummary cfg rs o))
    learning_gaps := (gapObjectives cfg rs).map (fun o => (o, mkLearningGap cfg rs o))
    low_performing_students := (lowPerformerIds cfg rs).map (fun s => mkLowPerforming cfg rs s)
    misunderstood_concepts := (misunderstoodIds cfg rs).map (fun q => mkMisunderstood rs q) }

/-- C1: on the empty input sequence, for any configuration, the aggregator
returns a `FeedbackSummary` in which every collection is empty; there is no
failure case (the model is a total function). -/
theorem C1_generate_feedback_empty (cfg : AggConfig) :
    (generate_feedback cfg []).student_summaries = [] ∧
    (generate_feedback cfg []).teacher_summaries = [] ∧
    (generate_feedback cfg []).objective_summaries = [] ∧
    (generate_feedback cfg []).learning_gaps = [] ∧
    (generate_feedback cfg []).low_performing_students = [] ∧
    (generate_feedback cfg []).misunderstood_concepts = [] :=
  ⟨rfl, rfl, rfl, rfl, rfl, rfl⟩

theorem lookup_map_self {α β : Type} [DecidableEq α] (f : α → β) :
    ∀ (keys : List α) (k : α), k ∈ keys →
      List.lookup k (keys.map (fun x => (x, f x))) = some (f k) := by
  intro keys
  induction keys with
  | nil => intro k hk; cases hk
  | cons x xs ih =>
    intro k hk
    by_cases hkx : k = x
    · subst hkx
      simp [List.lookup]
    · rw [List.map_cons, List.lookup]
      rw [List.mem_cons] at hk
      have hx : (k == x) = false := by simp [hkx]
      rw [hx]
      exact ih k (hk.resolve_left hkx)

theorem student_keys_eq (cfg : AggConfig) (rs : List AssessmentRecord) :
    (generate_feedback cfg rs).student_summaries.map Prod.fst = studentIds rs := by
  show ((studentIds rs).map (fun s => (s, mkStudentSummary rs s))).map Prod.fst
    = studentIds rs
  rw [List.map_map]
  exact List.map_id'' (fun x => rfl) _

/-- C2: every student id occurring in the input appears exactly once as a
key of `student_summaries`, and that entry's `total_assessments` equals the
number of input records bearing that student id. -/
theorem C2_student_summaries (cfg : AggConfig) (rs : List AssessmentRecord)
    (s : String) (hs : s ∈ rs.map (fun r => r.student_id)) :
    ((generate_feedback cfg rs).student_summaries.map Prod.fst).count s = 1 ∧
    ((generate_feedback cfg rs).student_summaries.lookup s).map
        (fun d => d.total_assessments) =
      some (rs.filter (fun r => r.student_id == s)).length := by
  constructor
  · rw [student_keys_eq]
    exact List.count_eq_one_of_mem (firstDedup_nodup _) ((mem_firstDedup _ _).2 hs)
  · have hl : List.lookup s
        ((studentIds rs).map (fun k => (k, mkStudentSummary rs k))) =
        some (mkStudentSummary rs s) :=
      lookup_map_self _ (studentIds rs) s ((mem_firstDedup _ _).2 hs)
    show (List.lookup s
        ((studentIds rs).map (fun k => (k, mkStudentSummary rs k)))).map
        (fun d => d.total_assessments) = _
    rw [hl]
    rfl

/-- Default configuration of §6, used by the witnesses. -/
def cfg0 : AggConfig :=
  { mastery_threshold := 7 / 10
    low_performer_threshold := 3 / 5
    gap_threshold := 3 / 5
    misunderstanding_threshold := 1 / 2
    top_k := 3
    bottom_k := 3 }

/-- Witness record: student s1 with score exactly at the low-performer
threshold. -/
def r1 : AssessmentRecord :=
  { student_id := "s1", teacher_id := "t1", objective := "o1",
    question := "q1", answer := "a1", score := 3 / 5,
    bloom_level := "Understand", question_type := "short_answer" }

/-- Witness record: student s2 with score below the low-performer
threshold. -/
def r2 : AssessmentRecord :=
  { student_id := "s2", teacher_id := "t1", objective := "o1",
    question := "q2", answer := "a2", score := 1 / 2,
    bloom_level := "Apply", question_type := "short_answer" }

/-- Witness input list. -/
def rsW : List AssessmentRecord := [r1, r2]

theorem C2_student_summaries_witness :
    ("s1" ∈ rsW.map (fun r => r.student_id)) ∧
    (((generate_feedback cfg0 rsW).student_summaries.map Prod.fst).count "s1" = 1 ∧
     ((generate_feedback cfg0 rsW).student_summaries.lookup "s1").map
         (fun d => d.total_assessments) =
       some (rsW.filter (fun r => r.student_id == "s1")).length) :=
  ⟨by decide, C2_student_summaries cfg0 rsW "s1" (by decide)⟩

theorem low_performer_ids_eq (cfg : AggConfig) (rs : List AssessmentRecord) :
    (generate_feedback cfg rs).low_performing_students.map (fun d => d.student_id)
      = lowPerformerIds cfg rs := by
  show ((lowPerformerIds cfg rs).map (fun s => mkLowPerforming cfg rs s)).map
      (fun d => d.student_id) = lowPerformerIds cfg rs
  rw [List.map_map]
  exact List.map_id'' (fun x => rfl) _

/-- C3: a student whose overall average equals the low-performer threshold
is not in `low_performing_students` (strict less-than semantics), and a
student whose average is strictly below the threshold is in the list (in
the exact-rational model, any average below the threshold — in particular
one a unit of tolerance below — is strictly below). -/
theorem C3_low_performer_threshold (cfg : AggConfig) (rs : List AssessmentRecord)
    (s : String) (hs : s ∈ rs.map (fun r => r.student_id)) :
    (studentAvg rs s = cfg.low_performer_threshold →
      s ∉ (generate_feedback cfg rs).low_performing_students.map
        (fun d => d.student_id)) ∧
    (studentAvg rs s < cfg.low_performer_threshold →
      s ∈ (generate_feedback cfg rs).low_performing_students.map
        (fun d => d.student_id)) := by
  constructor
  · intro heq hmem
    rw [low_performer_ids_eq, lowPerformerIds, List.mem_filter] at hmem
    have hp := hmem.2
    rw [heq] at hp
    simp at hp
  · intro hlt
    rw [low_performer_ids_eq, lowPerformerIds, List.mem_filter]
    exact ⟨(mem_firstDedup _ _).2 hs, by simp [hlt]⟩

theorem C3_low_performer_threshold_witness :
    ("s1" ∉ (generate_feedback cfg0 rsW).low_performing_students.map
        (fun d => d.student_id)) ∧
    ("s2" ∈ (generate_feedback cfg0 rsW).low_performing_students.map
        (fun d => d.student_id)) :=
  ⟨(C3_low_performer_threshold cfg0 rsW "s1" (by decide)).1
     (by simp [studentAvg, studentScores, recordsOfStudent, mean, rsW, r1, r2, cfg0]),
   (C3_low_performer_threshold cfg0 rsW "s2" (by decide)).2
     (by simp [studentAvg, studentScores, recordsOfStudent, mean, rsW, r1, r2, cfg0]; norm_num)⟩

/-- C4: the aggregator is deterministic — it is a pure function of the
record sequence and the configuration (the model sums scores in input
order), so two runs on the same input and configuration return equal
summaries. -/
theorem C4_deterministic (cfg1 cfg2 : AggConfig)
    (rs1 rs2 : List AssessmentRecord) (hc : cfg1 = cfg2) (hr : rs1 = rs2) :
    generate_feedback cfg1 rs1 = generate_feedback cfg2 rs2 := by
  subst hc
  subst hr
  rfl

theorem C4_deterministic_witness :
    generate_feedback cfg0 rsW = generate_feedback cfg0 rsW :=
  C4_deterministic cfg0 cfg0 rsW rsW rfl rfl
